import Mathlib

/-! Shallow embedding of src/webhdfs/webhdfs.py, a WebHDFS REST client.

The Python module builds WebHDFS control-plane URLs, follows Location
redirects to a DataNode, and post-processes payloads.  External
libraries (httplib, the local filesystem, json, zlib) are modelled at
their call boundary: HTTP responses are inputs (HttpResponse), the
data-plane requests the code issues are outputs (DataPlaneRequest),
decoded JSON bodies are JVal trees, and the zlib call
zlib.decompressobj(w).decompress(data, max_length) is an explicit
function parameter of the readfile model.  Python exceptions are
modelled with Except PyErr.  The urlparse model below follows the
CPython 2.7 Lib/urlparse.py implementation that the source imports. -/

deriving instance DecidableEq for Except

namespace WebHDFS

/-- Python exceptions that the modelled code can raise. -/
inductive PyErr where
  /-- Exception raised by parse_url when the host regex does not match. -/
  | invalidHostPort (netloc : String)
  /-- TypeError raised by int(None) when the port group matched nothing. -/
  | typeErrorIntNone
  /-- KeyError raised by a missing mapping key, e.g. msg["location"]. -/
  | keyError (k : String)
  /-- TypeError from indexing or iterating a value of the wrong type. -/
  | typeError
  /-- ValueError("Invalid IPv6 URL") raised inside urlsplit. -/
  | valueErrorIPv6
  deriving DecidableEq, Repr

/-- ASCII lowercasing of one character, as Python str.lower does. -/
def pyLowerChar (c : Char) : Char :=
  if 65 ≤ c.toNat ∧ c.toNat ≤ 90 then Char.ofNat (c.toNat + 32) else c

/-- Python str.lower for ASCII strings. -/
def pyLower (s : String) : String :=
  String.mk (s.toList.map pyLowerChar)

/-- Python str.find: index of the first occurrence of c, or -1. -/
def pyFind (l : List Char) (c : Char) : Int :=
  match l.findIdx? (fun x => x == c) with
  | some n => (n : Int)
  | none => -1

/-- The scheme_chars constant of CPython 2.7 urlparse.py. -/
def scheme_chars : List Char :=
  "abcdefghijklmnopqrstuvwxyzABCDEFGHIJKLMNOPQRSTUVWXYZ0123456789+-.".toList

/-- The uses_netloc scheme list of CPython 2.7 urlparse.py. -/
def uses_netloc : List String :=
  ["ftp", "http", "gopher", "nntp", "telnet", "imap", "wais", "file", "mms",
   "https", "shttp", "snews", "prospero", "rtsp", "rtspu", "rsync", "",
   "svn", "svn+ssh", "sftp", "nfs", "git", "git+ssh"]

/-- The uses_query scheme list of CPython 2.7 urlparse.py. -/
def uses_query : List String :=
  ["http", "wais", "imap", "https", "shttp", "mms", "gopher", "rtsp", "rtspu",
   "sip", "sips", ""]

/-- The uses_fragment scheme list of CPython 2.7 urlparse.py. -/
def uses_fragment : List String :=
  ["ftp", "hdl", "http", "gopher", "news", "nntp", "wais", "https", "shttp",
   "snews", "file", "prospero", ""]

/-- The uses_params scheme list of CPython 2.7 urlparse.py. -/
def uses_params : List String :=
  ["ftp", "hdl", "prospero", "http", "imap", "https", "shttp", "rtsp", "rtspu",
   "sip", "sips", "mms", "", "sftp", "tel"]

/-- Split a list at the first occurrence of d, or return none. -/
def splitAtFirstChar (d : Char) : List Char → Option (List Char × List Char)
  | [] => none
  | c :: rest =>
    if c == d then some ([], rest)
    else
      match splitAtFirstChar d rest with
      | none => none
      | some (a, b) => some (c :: a, b)

/-- Python s.split(d, 1) packaged as a pair; identity when d is absent. -/
def pySplit1 (l : List Char) (d : Char) : List Char × List Char :=
  match splitAtFirstChar d l with
  | none => (l, [])
  | some (a, b) => (a, b)

/-- Characters that end the network-location segment in _splitnetloc. -/
def netlocDelim (c : Char) : Bool :=
  c == '/' || c == '?' || c == '#'

/-- CPython _splitnetloc applied after the leading // has been dropped:
the netloc runs to the first of the characters / ? #. -/
def splitnetloc (l : List Char) : List Char × List Char :=
  (l.takeWhile (fun c => !netlocDelim c), l.dropWhile (fun c => !netlocDelim c))

/-- The unbalanced-square-bracket test urlsplit applies to a netloc. -/
def bracketMismatch (netloc : List Char) : Bool :=
  (netloc.contains '[' && !netloc.contains ']') ||
  (netloc.contains ']' && !netloc.contains '[')

/-- The five components returned by CPython urlsplit. -/
structure SplitResult where
  scheme : List Char
  netloc : List Char
  path : List Char
  query : List Char
  fragment : List Char
  deriving DecidableEq, Repr

/-- The fragment and query splitting steps shared by both urlsplit paths:
split off the fragment at the first hash sign, then the query at the
first question mark, each gated on the scheme lists exactly as in the
CPython source (the http fast path passes scheme http, a member of
both lists, so it performs both splits unconditionally there too). -/
def splitFragQuery (scheme rest : List Char) : List Char × List Char × List Char :=
  let fr := if uses_fragment.contains (String.mk scheme) && rest.contains '#' then
              pySplit1 rest '#' else (rest, [])
  let pq := if uses_query.contains (String.mk scheme) && fr.1.contains '?' then
              pySplit1 fr.1 '?' else (fr.1, [])
  (pq.1, pq.2, fr.2)

/-- CPython 2.7 urlsplit with the default empty scheme and fragments
allowed.  The first branch is the optimized url[:i] == http fast path
of the original; the second branch is the general path with its
scheme-characters check and its not-a-port-number check. -/
def urlsplit (url : List Char) : Except PyErr SplitResult :=
  let i : Int := pyFind url ':'
  if 0 < i ∧ url.take i.toNat = "http".toList then
    let rest := url.drop (i.toNat + 1)
    let nr := if rest.take 2 = ['/', '/'] then splitnetloc (rest.drop 2)
              else (([] : List Char), rest)
    if bracketMismatch nr.1 then .error .valueErrorIPv6
    else
      let pqf := splitFragQuery ("http".toList) nr.2
      .ok ⟨"http".toList, nr.1, pqf.1, pqf.2.1, pqf.2.2⟩
  else
    let su :=
      if 0 < i ∧ (url.take i.toNat).all (fun c => scheme_chars.contains c) ∧
         ((url.drop (i.toNat + 1)).isEmpty = true ∨
          ¬ ((url.drop (i.toNat + 1)).all Char.isDigit = true)) then
        ((url.take i.toNat).map pyLowerChar, url.drop (i.toNat + 1))
      else (([] : List Char), url)
    let nr := if uses_netloc.contains (String.mk su.1) ∧ su.2.take 2 = ['/', '/'] then
                splitnetloc (su.2.drop 2)
              else (([] : List Char), su.2)
    if bracketMismatch nr.1 then .error .valueErrorIPv6
    else
      let pqf := splitFragQuery su.1 nr.2
      .ok ⟨su.1, nr.1, pqf.1, pqf.2.1, pqf.2.2⟩

/-- The six components returned by CPython urlparse. -/
structure ParseResult6 where
  scheme : List Char
  netloc : List Char
  path : List Char
  params : List Char
  query : List Char
  fragment : List Char
  deriving DecidableEq, Repr

/-- Index of the last occurrence of c (Python str.rindex, with 0 as an
unreachable default since callers check membership first). -/
def lastIdxOf (l : List Char) (c : Char) : Nat :=
  match l.reverse.findIdx? (fun x => x == c) with
  | some n => l.length - 1 - n
  | none => 0

/-- Python str.find(c, start): first occurrence at or after start. -/
def findFrom (l : List Char) (c : Char) (start : Nat) : Option Nat :=
  match (l.drop start).findIdx? (fun x => x == c) with
  | some n => some (start + n)
  | none => none

/-- CPython _splitparams: split trailing URL parameters off the last
path segment at the first semicolon after the last slash. -/
def splitparams (l : List Char) : List Char × List Char :=
  if l.contains '/' then
    match findFrom l ';' (lastIdxOf l '/') with
    | none => (l, [])
    | some i => (l.take i, l.drop (i + 1))
  else
    match l.findIdx? (fun x => x == ';') with
    | none => (l, [])
    | some i => (l.take i, l.drop (i + 1))

/-- CPython 2.7 urlparse: urlsplit plus the params split.  A raised
exception propagates, modelled by the error match arm. -/
def urlparse (url : List Char) : Except PyErr ParseResult6 :=
  match urlsplit url with
  | .error e => .error e
  | .ok s =>
    if uses_params.contains (String.mk s.scheme) ∧ s.path.contains ';' then
      let pp := splitparams s.path
      .ok ⟨s.scheme, s.netloc, pp.1, pp.2, s.query, s.fragment⟩
    else
      .ok ⟨s.scheme, s.netloc, s.path, [], s.query, s.fragment⟩

/-- Characters accepted by the host group of the parse_url regex,
which is the character class of letters, digits, hyphen and dot. -/
def hostChar (c : Char) : Bool :=
  c.isAlpha || c.isDigit || c == '-' || c == '.'

/-- The re.match against a netloc in WebHDFS.parse_url, source line 56.
The pattern anchors only at the start: the host group greedily takes
the longest prefix of host characters (it must be nonempty), an
optional colon follows, and the optional port group then takes up to
five digits and succeeds only when it gets at least two; everything
after the match is silently ignored.  The result mirrors
match.groups(): the host and an optional port string. -/
def matchHostPort (netloc : List Char) : Option (List Char × Option (List Char)) :=
  let host := netloc.takeWhile hostChar
  if host.isEmpty then none
  else
    let rest := netloc.drop host.length
    let rest2 := if rest.head? = some ':' then rest.drop 1 else rest
    let port := (rest2.takeWhile Char.isDigit).take 5
    if 2 ≤ port.length then some (host, some port) else some (host, none)

/-- Python int() on a nonempty string of decimal digits. -/
def digitsToNat (l : List Char) : Nat :=
  l.foldl (fun a c => a * 10 + (c.toNat - 48)) 0

/-- Python str.strip(c): remove leading and trailing occurrences of c. -/
def pyStrip (l : List Char) (c : Char) : List Char :=
  ((l.dropWhile (fun x => x == c)).reverse.dropWhile (fun x => x == c)).reverse

/-- The tail of WebHDFS.parse_url after urlparse, source lines 56 to 63:
match the netloc against the host regex, raise the invalid-host
exception when the match fails, and otherwise return
host, int(port), path.strip(slash), query.  When the port group
matched nothing, int(None) raises a TypeError. -/
def parse_netloc (netloc path query : List Char) :
    Except PyErr (String × Nat × String × String) :=
  match matchHostPort netloc with
  | none => .error (.invalidHostPort (String.mk netloc))
  | some (_, none) => .error .typeErrorIntNone
  | some (host, some port) =>
    .ok (String.mk host, digitsToNat port, String.mk (pyStrip path '/'), String.mk query)

/-- WebHDFS.parse_url, source lines 52 to 63. -/
def parse_url (url : String) : Except PyErr (String × Nat × String × String) :=
  match urlparse url.toList with
  | .error e => .error e
  | .ok u => parse_netloc u.netloc u.path u.query

/-- An HTTP response as the code observes it: status and reason, the
body length attribute (None for an empty file per the source comment),
the header mapping msg, and the body bytes that read() would return. -/
structure HttpResponse where
  status : Nat
  reason : String
  length : Option Nat
  msg : List (String × String)
  body : List Nat
  deriving DecidableEq, Repr

/-- Header lookup msg[k]: rfc822.Message indexing is case-insensitive
and raises KeyError when the header is absent (modelled as none). -/
def getHeader (msg : List (String × String)) (k : String) : Option String :=
  match msg.find? (fun p => pyLower p.1 == pyLower k) with
  | some p => some p.2
  | none => none

/-- A follow-up request issued against a DataNode. -/
structure DataPlaneRequest where
  method : String
  host : String
  port : Nat
  path : String
  deriving DecidableEq, Repr

/-- The URL-path prefix constant of the source module. -/
def WEBHDFS_CONTEXT_ROOT : String := "/webhdfs/v1"

/-- The window-bits constant the source passes to zlib.decompressobj. -/
def ZLIB_WBITS : Nat := 16

/-- The url_path assignment of WebHDFS.copyfromlocal, source line 80.
The Python line is one conditional expression whose condition binds
looser than string concatenation, so the whole concatenated CREATE URL
is the true branch and the bare string false is the false branch. -/
def copyfromlocal_url_path (target_path : String) (overwrite : Bool) : String :=
  if overwrite then
    WEBHDFS_CONTEXT_ROOT ++ target_path ++ "?op=CREATE&overwrite=" ++ "true"
  else
    "false"

/-- The redirect handling of WebHDFS.copyfromlocal, source lines 82 to
95, given the control-plane response: read msg["location"] (KeyError
when absent), parse it, append the query and the replication parameter
to the stripped redirect path, and issue the data-plane PUT against
the redirect host and port.  The function returns the data-plane
request; the source then returns the JSON-decoded data-plane body,
which no claim inspects. -/
def copyfromlocal (replication : Nat) (cresp : HttpResponse) :
    Except PyErr DataPlaneRequest :=
  match getHeader cresp.msg "location" with
  | none => .error (.keyError "location")
  | some loc =>
    match parse_url loc with
    | .error e => .error e
    | .ok (h, p, rpath, rquery) =>
      let redirect_path := rpath ++ "?" ++ rquery ++ "&replication=" ++ toString replication
      .ok ⟨"PUT", h, p, redirect_path⟩

/-- The url_path built by WebHDFS.copytolocal, source line 107. -/
def copytolocal_url_path (source_path : String) : String :=
  WEBHDFS_CONTEXT_ROOT ++ source_path ++ "?op=OPEN&overwrite=true"

/-- WebHDFS.copytolocal, source lines 106 to 137, given the
control-plane and data-plane responses.  Result: the returned status,
the bytes written to the local target file, and the data-plane
requests issued.  In the redirect branch the source rebinds response
to the data-plane response, so the returned status is the data-plane
status there and the control-plane status in the empty-file branch. -/
def copytolocal (cresp dresp : HttpResponse) :
    Except PyErr (Nat × List Nat × List DataPlaneRequest) :=
  if cresp.length.isSome && !cresp.msg.isEmpty then
    match getHeader cresp.msg "location" with
    | none => .error (.keyError "location")
    | some loc =>
      match parse_url loc with
      | .error e => .error e
      | .ok (h, p, rpath, rquery) =>
        let redirect_path := rpath ++ "?" ++ rquery
        .ok (dresp.status, dresp.body, [⟨"GET", h, p, redirect_path⟩])
  else
    .ok (cresp.status, [], [])

/-- The url_path built by WebHDFS.readfile, source lines 139 to 140. -/
def readfile_url_path (source_path : String) (offset length buffersize : Nat) : String :=
  WEBHDFS_CONTEXT_ROOT ++ source_path ++ "?op=OPEN&offset=" ++ toString offset ++
    "&length=" ++ toString length ++ "&buffersize=" ++ toString buffersize

/-- Python str.endswith for a fixed suffix string. -/
def pyEndsWith (s suf : String) : Bool :=
  suf.toList.isSuffixOf s.toList

/-- WebHDFS.readfile, source lines 139 to 160, given the control-plane
and data-plane responses.  The decompress parameter models the
external zlib call zlib.decompressobj(w).decompress(data, max_length),
applied as decompress wbits data maxLength.  Result: the value the
Python function returns (none models the implicit Python None of the
empty-file case, where the redirect branch is not taken and the
function body ends without a return statement) and the data-plane
requests issued.  Note two faithful oddities of the source: the
redirect_path it computes is never used, because the data-plane
request is issued with the original control-plane url_path through
another _NameNodeHTTPClient, which also appends the user.name
parameter a second time. -/
def readfile (source_path : String) (offset length buffersize : Nat)
    (username : String) (cresp dresp : HttpResponse)
    (decompress : Nat → List Nat → Nat → List Nat) :
    Except PyErr (Option (List Nat) × List DataPlaneRequest) :=
  let url_path := readfile_url_path source_path offset length buffersize
  if cresp.length.isSome && !cresp.msg.isEmpty then
    match getHeader cresp.msg "location" with
    | none => .error (.keyError "location")
    | some loc =>
      match parse_url loc with
      | .error e => .error e
      | .ok (h, p, rpath, rquery) =>
        let _redirect_path := rpath ++ "?" ++ rquery
        let dreq : DataPlaneRequest :=
          ⟨"GET", h, p, url_path ++ "&user.name=" ++ username⟩
        if pyEndsWith source_path ".gz" then
          .ok (some (decompress ZLIB_WBITS dresp.body length), [dreq])
        else
          .ok (some dresp.body, [dreq])
  else
    .ok (none, [])

/-- Decoded JSON values, as handed back by the external json library. -/
inductive JVal where
  | jstr (s : String)
  | jnum (n : Int)
  | jbool (b : Bool)
  | jnull
  | jarr (elems : List JVal)
  | jobj (fields : List (String × JVal))

/-- Python indexing v[k] on a decoded JSON value: field lookup on an
object, KeyError when the key is absent, TypeError otherwise. -/
def jget (v : JVal) (k : String) : Except PyErr JVal :=
  match v with
  | .jobj fields =>
    match fields.find? (fun p => p.1 == k) with
    | some p => .ok p.2
    | none => .error (.keyError k)
  | _ => .error .typeError

/-- The loop body of WebHDFS.listdir, source lines 170 to 172: for each
element the code first indexes type and pathSuffix for the log line,
then appends the triple (pathSuffix, length, type); lookups are pure,
so each key is modelled as read once, in first-failure order. -/
def extractStatuses : List JVal → Except PyErr (List (JVal × JVal × JVal))
  | [] => .ok []
  | i :: rest =>
    match jget i "type" with
    | .error e => .error e
    | .ok ty =>
      match jget i "pathSuffix" with
      | .error e => .error e
      | .ok ps =>
        match jget i "length" with
        | .error e => .error e
        | .ok ln =>
          match extractStatuses rest with
          | .error e => .error e
          | .ok rest2 => .ok ((ps, ln, ty) :: rest2)

/-- The body-processing part of WebHDFS.listdir, source lines 167 to
175, applied to the decoded response body: index FileStatuses, then
FileStatus, and iterate.  A Python for-loop over a dict iterates its
keys and over a string iterates its one-character substrings, and
raises TypeError on non-iterables; all three are mirrored here. -/
def listdir_extract (data_dict : JVal) : Except PyErr (List (JVal × JVal × JVal)) :=
  match jget data_dict "FileStatuses" with
  | .error e => .error e
  | .ok fss =>
    match jget fss "FileStatus" with
    | .error e => .error e
    | .ok arr =>
      match arr with
      | .jarr xs => extractStatuses xs
      | .jobj fields => extractStatuses (fields.map (fun p => .jstr p.1))
      | .jstr s => extractStatuses (s.toList.map (fun c => .jstr (String.mk [c])))
      | _ => .error .typeError

/-- Connection events for the resource-scoping model. -/
inductive Event where
  | connOpen (endpoint : String)
  | connClose (endpoint : String)
  deriving DecidableEq, Repr

/-- Every connection opened in the trace is also closed in it. -/
def closedOnExit (t : List Event) : Bool :=
  t.all (fun e =>
    match e with
    | .connOpen c => t.contains (.connClose c)
    | _ => true)

/-- Exit paths of copyfromlocal modelled for the trace analysis.  The
control-plane connection NN is opened by the request call inside
_NameNodeHTTPClient and closed by its with-scope on any exception
raised in the with-body; the data-plane connection DN is opened by the
request call of the raw HTTPConnection and closed only by the explicit
close call on the normal path. -/
inductive CopyFromScenario where
  /-- no failure -/
  | ok
  /-- parse_url raises inside the with-body, before DN is opened -/
  | parseFail
  /-- open(source_path).read() raises; it is evaluated as an argument
  before the request call connects, so DN is never opened -/
  | localReadFail
  /-- the data-plane getresponse raises after DN was opened; the
  explicit close below it is never reached -/
  | dnGetresponseFail
  deriving DecidableEq, Repr

/-- Connection trace of copyfromlocal per scenario, source lines 79 to
103: open NN; on redirect open DN, close DN explicitly, then the
with-scope closes NN.  An exception in the with-body still closes NN
but skips the explicit DN close. -/
def copyfromlocal_trace : CopyFromScenario → List Event
  | .ok => [.connOpen "NN", .connOpen "DN", .connClose "DN", .connClose "NN"]
  | .parseFail => [.connOpen "NN", .connClose "NN"]
  | .localReadFail => [.connOpen "NN", .connClose "NN"]
  | .dnGetresponseFail => [.connOpen "NN", .connOpen "DN", .connClose "NN"]

/-- Exit paths of copytolocal modelled for the trace analysis. -/
inductive CopyToScenario where
  /-- empty-file branch: no DN connection at all -/
  | emptyFile
  /-- redirect branch, no failure -/
  | redirectOk
  /-- parse_url raises before DN is opened -/
  | parseFail
  /-- open(target_path, w) raises after the data-plane getresponse;
  the explicit DN close below it is never reached -/
  | localOpenFail
  /-- the data-plane getresponse raises after DN was opened -/
  | dnGetresponseFail
  deriving DecidableEq, Repr

/-- Connection trace of copytolocal per scenario, source lines 105 to
137: open NN; in the redirect branch open DN, close DN explicitly
after writing the local file, then the with-scope closes NN; an
exception in the with-body closes NN but skips the explicit DN
close. -/
def copytolocal_trace : CopyToScenario → List Event
  | .emptyFile => [.connOpen "NN", .connClose "NN"]
  | .redirectOk => [.connOpen "NN", .connOpen "DN", .connClose "DN", .connClose "NN"]
  | .parseFail => [.connOpen "NN", .connClose "NN"]
  | .localOpenFail => [.connOpen "NN", .connOpen "DN", .connClose "NN"]
  | .dnGetresponseFail => [.connOpen "NN", .connOpen "DN", .connClose "NN"]

/-- Exit paths of readfile modelled for the trace analysis. -/
inductive ReadScenario where
  /-- empty-file branch: no DN connection at all -/
  | emptyFile
  /-- redirect branch, no failure -/
  | redirectOk
  /-- parse_url raises before DN is opened -/
  | parseFail
  /-- reading or decompressing the data-plane body raises inside the
  inner with-scope, which still closes DN -/
  | dnBodyFail
  deriving DecidableEq, Repr

/-- Connection trace of readfile per scenario, source lines 139 to 160:
both connections are opened through _NameNodeHTTPClient with-scopes,
so each is closed when its with-body exits, normally or not. -/
def readfile_trace : ReadScenario → List Event
  | .emptyFile => [.connOpen "NN", .connClose "NN"]
  | .redirectOk => [.connOpen "NN", .connOpen "DN", .connClose "DN", .connClose "NN"]
  | .parseFail => [.connOpen "NN", .connClose "NN"]
  | .dnBodyFail => [.connOpen "NN", .connOpen "DN", .connClose "DN", .connClose "NN"]

/-- A concrete stand-in for the abstract decompress parameter, used by
witnesses; it satisfies the zlib output bound by construction. -/
def takeDecompress : Nat → List Nat → Nat → List Nat :=
  fun _ data maxLength => data.take maxLength

/-- A redirect Location pointing at a DataNode path that differs from
the control-plane path, used by several concrete scenarios. -/
def locRedirect : String :=
  "http://dn01:50075/webhdfs/v1/other/path.txt?op=OPEN&namenoderpcaddress=nn:8020"

/-- A control-plane redirect response carrying locRedirect. -/
def crespRedirect : HttpResponse :=
  ⟨307, "TEMPORARY_REDIRECT", some 0, [("location", locRedirect)], []⟩

/-- A data-plane response with a two-byte body. -/
def drespData : HttpResponse :=
  ⟨200, "OK", some 2, [("content-type", "application/octet-stream")], [104, 105]⟩

/-- A control-plane response signalling an empty file: no body length
and no Location header. -/
def crespEmpty : HttpResponse :=
  ⟨200, "OK", none, [], []⟩

/-- A control-plane response with a body length and nonempty headers
but no Location header. -/
def crespNoLocation : HttpResponse :=
  ⟨200, "OK", some 5, [("content-type", "application/json")], [123, 125]⟩

/-- The LISTSTATUS example body from the specification, with one extra
ignored field on the first entry. -/
def listingExample : JVal :=
  .jobj [("FileStatuses", .jobj [("FileStatus", .jarr
    [ .jobj [("accessTime", .jnum 0), ("pathSuffix", .jstr "a.txt"),
             ("length", .jnum 10), ("type", .jstr "FILE")],
      .jobj [("pathSuffix", .jstr "sub"), ("length", .jnum 0),
             ("type", .jstr "DIRECTORY")] ])])]

/-- Helper: a nonempty list has isEmpty false. -/
theorem isEmpty_false_of_ne_nil {α : Type} {l : List α} (h : l ≠ []) :
    l.isEmpty = false := by
  cases l with
  | nil => exact absurd rfl h
  | cons a t => rfl

/-- C1: the claim says copyfromlocal issues a PUT whose URL query holds
op=CREATE together with the overwrite value of the argument.  The code
disagrees on the false case: the conditional-expression precedence of
the Python line makes the whole concatenated CREATE URL the true
branch, so with overwrite false the entire control-plane path is the
bare string false, with no op=CREATE and no overwrite parameter, while
the true case builds the expected URL.  This theorem evaluates the
modelled url_path construction at both inputs. -/
theorem copyfromlocal_url_path_overwrite_bug :
    copyfromlocal_url_path "/data/t.txt" false = "false" ∧
    copyfromlocal_url_path "/data/t.txt" true =
      "/webhdfs/v1/data/t.txt?op=CREATE&overwrite=true" :=
  ⟨rfl, rfl⟩

/-- C2: the claim says the data-plane GET of readfile targets the
redirect path with the redirect query reattached.  The code computes
exactly that string but never uses it: the follow-up request is issued
with the original control-plane url_path, with user.name appended a
second time.  Evaluated here at a redirect whose path differs from the
control-plane path: the request carries the control-plane path, which
is distinct from the redirect-derived string. -/
theorem readfile_ignores_redirect_path :
    readfile "/data/f.txt" 0 10000 10000 "hadoop" crespRedirect drespData takeDecompress =
      .ok (some [104, 105],
        [⟨"GET", "dn01", 50075,
          "/webhdfs/v1/data/f.txt?op=OPEN&offset=0&length=10000&buffersize=10000&user.name=hadoop"⟩]) ∧
    parse_url locRedirect =
      .ok ("dn01", 50075, "webhdfs/v1/other/path.txt", "op=OPEN&namenoderpcaddress=nn:8020") ∧
    ("/webhdfs/v1/data/f.txt?op=OPEN&offset=0&length=10000&buffersize=10000&user.name=hadoop" : String) ≠
      "webhdfs/v1/other/path.txt" ++ "?" ++ "op=OPEN&namenoderpcaddress=nn:8020" :=
  ⟨by decide, by decide, by decide⟩

/-- C3 counterexample: a malformed network location containing a space
is accepted by parse_url, which silently keeps the valid host and port
prefix and ignores the rest instead of failing with any error. -/
theorem parse_url_accepts_malformed_netloc :
    parse_url "http://host:50075 junk/webhdfs/v1/f?op=OPEN" =
      .ok ("host", 50075, "webhdfs/v1/f", "op=OPEN") ∧
    ∀ e : PyErr, parse_url "http://host:50075 junk/webhdfs/v1/f?op=OPEN" ≠ .error e := by
  refine ⟨by decide, ?_⟩
  intro e he
  exact Except.noConfusion
    ((by decide : parse_url "http://host:50075 junk/webhdfs/v1/f?op=OPEN" =
      .ok ("host", 50075, "webhdfs/v1/f", "op=OPEN")).symm.trans he)

/-- C3 (amended): a network location that does not begin with a host
character makes parse_netloc raise the invalid-host exception, the
MalformedRedirectError of the specification, and readfile propagates
any parse_url failure as an error that issues no data-plane request;
but, per the counterexample, malformed content after a valid
host-and-port prefix is silently ignored rather than rejected, and a
valid host with no parseable port fails with a TypeError instead. -/
theorem parse_netloc_invalid_start :
    (∀ netloc pathL queryL : List Char, netloc.takeWhile hostChar = [] →
      parse_netloc netloc pathL queryL = .error (.invalidHostPort (String.mk netloc))) ∧
    (∀ (sp : String) (off ln bs : Nat) (user : String) (cresp dresp : HttpResponse)
        (D : Nat → List Nat → Nat → List Nat) (loc : String) (e : PyErr),
      cresp.length.isSome = true → cresp.msg ≠ [] →
      getHeader cresp.msg "location" = some loc →
      parse_url loc = .error e →
      readfile sp off ln bs user cresp dresp D = .error e) := by
  constructor
  · intro netloc pathL queryL h
    simp [parse_netloc, matchHostPort, h]
  · intro sp off ln bs user cresp dresp D loc e hl hm hloc hp
    simp [readfile, hl, isEmpty_false_of_ne_nil hm, hloc, hp]

/-- C3 witness for the amended theorem: a network location starting
with a space fails with the invalid-host error, and readfile turns a
parse failure into an error with no data-plane request. -/
theorem parse_netloc_invalid_start_witness :
    (" host".toList.takeWhile hostChar = [] ∧
      parse_netloc " host".toList "/x".toList "q".toList =
        .error (.invalidHostPort " host")) ∧
    readfile "/data/f.txt" 0 10000 10000 "hadoop"
        ⟨307, "TEMPORARY_REDIRECT", some 0, [("location", "http:// bad loc")], []⟩
        drespData takeDecompress =
      .error (.invalidHostPort " bad loc") := by
  refine ⟨⟨by decide, ?_⟩, ?_⟩
  · exact (parse_netloc_invalid_start.1 " host".toList "/x".toList "q".toList
      (by decide)).trans (by decide)
  · exact parse_netloc_invalid_start.2 "/data/f.txt" 0 10000 10000 "hadoop"
      ⟨307, "TEMPORARY_REDIRECT", some 0, [("location", "http:// bad loc")], []⟩
      drespData takeDecompress "http:// bad loc" (.invalidHostPort " bad loc")
      (by decide) (by decide) (by decide) (by decide)

/-- C4 counterexample: a valid network location with the port omitted
does not yield a no-port result; parse_url crashes with the TypeError
that int(None) raises, contradicting the tolerate-missing-port part of
the claim. -/
theorem parse_url_missing_port_crash :
    parse_url "http://datanode.example.com/webhdfs/v1/data/f.txt?op=OPEN" =
      .error .typeErrorIntNone := by decide

/-- C4 (amended): for every valid network location with an explicit
port, host of host characters and two-to-five-digit port, parse_netloc
returns exactly that host and that port numeral, never substituting an
unrelated port; when the port is absent the pattern yields no port
group and the function fails with the int(None) TypeError instead of
returning a no-port result. -/
theorem parse_netloc_valid (hostL portL pathL queryL : List Char)
    (hne : hostL ≠ [])
    (hhost : ∀ c ∈ hostL, hostChar c = true)
    (hlen2 : 2 ≤ portL.length) (hlen5 : portL.length ≤ 5)
    (hdig : ∀ c ∈ portL, c.isDigit = true) :
    parse_netloc (hostL ++ ':' :: portL) pathL queryL =
      .ok (String.mk hostL, digitsToNat portL,
        String.mk (pyStrip pathL '/'), String.mk queryL) ∧
    parse_netloc hostL pathL queryL = .error .typeErrorIntNone := by
  have htw : (hostL ++ ':' :: portL).takeWhile hostChar = hostL := by
    rw [List.takeWhile_append_of_pos hhost,
      List.takeWhile_cons_of_neg (by decide : ¬ hostChar ':' = true)]
    simp
  have htwSelf : hostL.takeWhile hostChar = hostL :=
    List.takeWhile_eq_self_iff.mpr hhost
  have hdigits : portL.takeWhile Char.isDigit = portL :=
    List.takeWhile_eq_self_iff.mpr hdig
  have hdrop : (hostL ++ ':' :: portL).drop hostL.length = ':' :: portL :=
    List.drop_left hostL (':' :: portL)
  constructor
  · have hmp : matchHostPort (hostL ++ ':' :: portL) = some (hostL, some portL) := by
      simp only [matchHostPort, htw, isEmpty_false_of_ne_nil hne, hdrop]
      simp [hdigits, List.take_of_length_le hlen5, hlen2]
    simp [parse_netloc, hmp]
  · have hmp : matchHostPort hostL = some (hostL, none) := by
      simp only [matchHostPort, htwSelf, isEmpty_false_of_ne_nil hne, List.drop_length]
      simp
    simp [parse_netloc, hmp]

/-- C4 witness for the amended theorem, at host dn01 and port 50075. -/
theorem parse_netloc_valid_witness :
    ("dn01".toList ≠ [] ∧ 2 ≤ "50075".toList.length ∧ "50075".toList.length ≤ 5) ∧
    parse_netloc ("dn01".toList ++ ':' :: "50075".toList)
        "/webhdfs/v1/f".toList "op=OPEN".toList =
      .ok ("dn01", 50075, "webhdfs/v1/f", "op=OPEN") ∧
    parse_netloc "dn01".toList "/webhdfs/v1/f".toList "op=OPEN".toList =
      .error .typeErrorIntNone := by
  refine ⟨⟨by decide, by decide, by decide⟩, ?_, ?_⟩
  · exact (parse_netloc_valid "dn01".toList "50075".toList "/webhdfs/v1/f".toList
      "op=OPEN".toList (by decide) (by decide) (by decide) (by decide) (by decide)).1.trans
      (by decide)
  · exact (parse_netloc_valid "dn01".toList "50075".toList "/webhdfs/v1/f".toList
      "op=OPEN".toList (by decide) (by decide) (by decide) (by decide) (by decide)).2

/-- C5 counterexample: on the empty-file control-plane response,
readfile falls off the end of its with-block without a return, so it
yields the Python None, modelled as none, not an empty byte sequence. -/
theorem readfile_empty_returns_none :
    readfile "/data/e.txt" 0 10000 10000 "hadoop" crespEmpty drespData takeDecompress =
      .ok (none, []) ∧
    readfile "/data/e.txt" 0 10000 10000 "hadoop" crespEmpty drespData takeDecompress ≠
      .ok (some [], []) :=
  ⟨by decide, by decide⟩

/-- C5 (amended): on a control-plane response with no body length, the
empty-file signal, both operations make no data-plane request;
copytolocal writes a zero-byte local file and returns the control
status, while readfile returns no value at all (Python None), not an
empty byte sequence. -/
theorem empty_response_short_circuit
    (sp : String) (off ln bs : Nat) (user : String)
    (cresp dresp : HttpResponse)
    (D : Nat → List Nat → Nat → List Nat)
    (h : cresp.length = none) :
    copytolocal cresp dresp = .ok (cresp.status, [], []) ∧
    readfile sp off ln bs user cresp dresp D = .ok (none, []) := by
  constructor
  · simp [copytolocal, h]
  · simp [readfile, h]

/-- C5 witness at the concrete empty-file response. -/
theorem empty_response_short_circuit_witness :
    crespEmpty.length = none ∧
    copytolocal crespEmpty drespData = .ok (200, [], []) ∧
    readfile "/data/e.txt" 0 10000 10000 "hadoop" crespEmpty drespData takeDecompress =
      .ok (none, []) := by
  refine ⟨rfl, ?_, ?_⟩
  · exact (empty_response_short_circuit "/data/e.txt" 0 10000 10000 "hadoop"
      crespEmpty drespData takeDecompress rfl).1.trans (by decide)
  · exact (empty_response_short_circuit "/data/e.txt" 0 10000 10000 "hadoop"
      crespEmpty drespData takeDecompress rfl).2

/-- C6: when readfile reaches the data-plane step, a source path ending
in the recognized compressed suffix .gz makes it return the data-plane
payload passed through the zlib decompress call with the
gzip-convention window bits ZLIB_WBITS and the requested length as the
output bound, so the decompressed output has at most length bytes
whenever the decompress function obeys the zlib max_length contract;
any other source path returns the payload unmodified. -/
theorem readfile_postprocess
    (sp : String) (off ln bs : Nat) (user : String)
    (cresp dresp : HttpResponse) (D : Nat → List Nat → Nat → List Nat)
    (loc host : String) (port : Nat) (rpath rquery : String)
    (hl : cresp.length.isSome = true) (hm : cresp.msg ≠ [])
    (hloc : getHeader cresp.msg "location" = some loc)
    (hp : parse_url loc = .ok (host, port, rpath, rquery)) :
    (pyEndsWith sp ".gz" = true →
      readfile sp off ln bs user cresp dresp D =
        .ok (some (D ZLIB_WBITS dresp.body ln),
          [⟨"GET", host, port, readfile_url_path sp off ln bs ++ "&user.name=" ++ user⟩])) ∧
    (pyEndsWith sp ".gz" = false →
      readfile sp off ln bs user cresp dresp D =
        .ok (some dresp.body,
          [⟨"GET", host, port, readfile_url_path sp off ln bs ++ "&user.name=" ++ user⟩])) ∧
    ((∀ w d n, (D w d n).length ≤ n) →
      ∀ out reqs, readfile sp off ln bs user cresp dresp D = .ok (some out, reqs) →
        pyEndsWith sp ".gz" = true → out.length ≤ ln) := by
  refine ⟨?_, ?_, ?_⟩
  · intro hgz
    simp [readfile, hl, isEmpty_false_of_ne_nil hm, hloc, hp, hgz]
  · intro hgz
    simp [readfile, hl, isEmpty_false_of_ne_nil hm, hloc, hp, hgz]
  · intro hD out reqs heq hgz
    have h1 : readfile sp off ln bs user cresp dresp D =
        .ok (some (D ZLIB_WBITS dresp.body ln),
          [⟨"GET", host, port, readfile_url_path sp off ln bs ++ "&user.name=" ++ user⟩]) := by
      simp [readfile, hl, isEmpty_false_of_ne_nil hm, hloc, hp, hgz]
    rw [h1] at heq
    simp only [Except.ok.injEq, Prod.mk.injEq, Option.some.injEq] at heq
    obtain ⟨hout, -⟩ := heq
    subst hout
    exact hD ZLIB_WBITS dresp.body ln

/-- C6 witness at a .gz path with the stand-in decompress function. -/
theorem readfile_postprocess_witness :
    pyEndsWith "/data/f.gz" ".gz" = true ∧
    readfile "/data/f.gz" 0 10000 10000 "hadoop" crespRedirect drespData takeDecompress =
      .ok (some [104, 105],
        [⟨"GET", "dn01", 50075,
          "/webhdfs/v1/data/f.gz?op=OPEN&offset=0&length=10000&buffersize=10000&user.name=hadoop"⟩]) := by
  refine ⟨by decide, ?_⟩
  exact ((readfile_postprocess "/data/f.gz" 0 10000 10000 "hadoop" crespRedirect drespData
    takeDecompress locRedirect "dn01" 50075 "webhdfs/v1/other/path.txt"
    "op=OPEN&namenoderpcaddress=nn:8020" (by decide) (by decide) (by decide) (by decide)).1
    (by decide)).trans (by decide)

/-- C7: on any control-plane response carrying a redirect Location that
parses, copyfromlocal issues its data-plane PUT against the redirect
host and port with the stripped redirect path, the redirect query, and
the replication parameter appended, so the request path contains the
replication argument. -/
theorem copyfromlocal_appends_replication
    (replication : Nat) (cresp : HttpResponse) (loc host : String) (port : Nat)
    (rpath rquery : String)
    (hloc : getHeader cresp.msg "location" = some loc)
    (hp : parse_url loc = .ok (host, port, rpath, rquery)) :
    copyfromlocal replication cresp =
      .ok ⟨"PUT", host, port,
        rpath ++ "?" ++ rquery ++ "&replication=" ++ toString replication⟩ := by
  simp [copyfromlocal, hloc, hp]

/-- C7 witness at replication 3, matching the example of the spec. -/
theorem copyfromlocal_appends_replication_witness :
    getHeader crespRedirect.msg "location" = some locRedirect ∧
    copyfromlocal 3 crespRedirect =
      .ok ⟨"PUT", "dn01", 50075,
        "webhdfs/v1/other/path.txt?op=OPEN&namenoderpcaddress=nn:8020&replication=3"⟩ := by
  refine ⟨by decide, ?_⟩
  exact (copyfromlocal_appends_replication 3 crespRedirect locRedirect "dn01" 50075
    "webhdfs/v1/other/path.txt" "op=OPEN&namenoderpcaddress=nn:8020"
    (by decide) (by decide)).trans (by decide)

/-- C8: when the decoded body holds a FileStatuses.FileStatus array
whose elements carry pathSuffix, length and type values, listdir
extracts exactly the triple (pathSuffix, length, type) of each element,
one per element, in array order, and nothing else. -/
theorem listdir_extract_triples (d fss : JVal) (xs : List JVal)
    (ts : List (JVal × JVal × JVal))
    (h1 : jget d "FileStatuses" = .ok fss)
    (h2 : jget fss "FileStatus" = .ok (JVal.jarr xs))
    (h3 : List.Forall₂ (fun i t =>
      jget i "pathSuffix" = .ok t.1 ∧ jget i "length" = .ok t.2.1 ∧
      jget i "type" = .ok t.2.2) xs ts) :
    listdir_extract d = .ok ts := by
  have hx : ∀ (ys : List JVal) (us : List (JVal × JVal × JVal)),
      List.Forall₂ (fun i t =>
        jget i "pathSuffix" = .ok t.1 ∧ jget i "length" = .ok t.2.1 ∧
        jget i "type" = .ok t.2.2) ys us → extractStatuses ys = .ok us := by
    intro ys us h
    induction h with
    | nil => rfl
    | cons hpair _ ih =>
      obtain ⟨hps, hln, hty⟩ := hpair
      simp [extractStatuses, hps, hln, hty, ih]
  simp [listdir_extract, h1, h2, hx xs ts h3]

/-- C8 witness on the example listing of the spec: one FILE of length
ten named a.txt and one DIRECTORY of length zero named sub, in the
order the service returned them, extra fields ignored. -/
theorem listdir_extract_triples_witness :
    listdir_extract listingExample =
      .ok [(.jstr "a.txt", .jnum 10, .jstr "FILE"),
           (.jstr "sub", .jnum 0, .jstr "DIRECTORY")] := by
  exact listdir_extract_triples listingExample
    (.jobj [("FileStatus", .jarr
      [ .jobj [("accessTime", .jnum 0), ("pathSuffix", .jstr "a.txt"),
               ("length", .jnum 10), ("type", .jstr "FILE")],
        .jobj [("pathSuffix", .jstr "sub"), ("length", .jnum 0),
               ("type", .jstr "DIRECTORY")] ])])
    [ .jobj [("accessTime", .jnum 0), ("pathSuffix", .jstr "a.txt"),
             ("length", .jnum 10), ("type", .jstr "FILE")],
      .jobj [("pathSuffix", .jstr "sub"), ("length", .jnum 0),
             ("type", .jstr "DIRECTORY")] ]
    [(.jstr "a.txt", .jnum 10, .jstr "FILE"),
     (.jstr "sub", .jnum 0, .jstr "DIRECTORY")]
    rfl rfl
    (List.Forall₂.cons ⟨rfl, rfl, rfl⟩
      (List.Forall₂.cons ⟨rfl, rfl, rfl⟩ List.Forall₂.nil))

/-- C9 counterexample: in copytolocal, an exception while opening the
local target file after the data-plane connection was opened leaves
that connection unclosed, because its close is an explicit call on the
normal path, not a scoped release; so not every exit path closes every
connection. -/
theorem copytolocal_trace_leak :
    closedOnExit (copytolocal_trace .localOpenFail) = false := by decide

/-- C9 (amended): the control-plane connection is closed on every
modelled exit path of copyfromlocal and copytolocal through its
with-scope, and readfile closes both of its connections on every
modelled exit path because its data-plane connection is also
with-scoped; but the data-plane connections of copyfromlocal and
copytolocal are closed only when the operation completes normally, as
the counterexample shows for an exception raised after the data-plane
connection was opened. -/
theorem connection_scoping :
    (∀ s, (copyfromlocal_trace s).contains (Event.connClose "NN") = true) ∧
    (∀ s, (copytolocal_trace s).contains (Event.connClose "NN") = true) ∧
    (∀ s, closedOnExit (readfile_trace s) = true) ∧
    closedOnExit (copyfromlocal_trace .ok) = true ∧
    closedOnExit (copytolocal_trace .redirectOk) = true ∧
    closedOnExit (copytolocal_trace .emptyFile) = true := by
  refine ⟨?_, ?_, ?_, by decide, by decide, by decide⟩
  · intro s
    cases s <;> decide
  · intro s
    cases s <;> decide
  · intro s
    cases s <;> decide

/-- C10: a control-plane response whose headers lack a location entry
makes the redirect code path fail with the KeyError of the mapping
lookup, not with the invalid-host error and not with a data result:
copyfromlocal reads the header unconditionally, and copytolocal and
readfile reach the lookup whenever the body length is present and the
header mapping is nonempty. -/
theorem missing_location_keyerror :
    (∀ (replication : Nat) (cresp : HttpResponse),
      getHeader cresp.msg "location" = none →
      copyfromlocal replication cresp = .error (.keyError "location")) ∧
    (∀ cresp dresp : HttpResponse,
      getHeader cresp.msg "location" = none →
      cresp.length.isSome = true → cresp.msg ≠ [] →
      copytolocal cresp dresp = .error (.keyError "location")) ∧
    (∀ (sp : String) (off ln bs : Nat) (user : String) (cresp dresp : HttpResponse)
        (D : Nat → List Nat → Nat → List Nat),
      getHeader cresp.msg "location" = none →
      cresp.length.isSome = true → cresp.msg ≠ [] →
      readfile sp off ln bs user cresp dresp D = .error (.keyError "location")) := by
  refine ⟨?_, ?_, ?_⟩
  · intro replication cresp h
    simp [copyfromlocal, h]
  · intro cresp dresp h hl hm
    simp [copytolocal, hl, isEmpty_false_of_ne_nil hm, h]
  · intro sp off ln bs user cresp dresp D h hl hm
    simp [readfile, hl, isEmpty_false_of_ne_nil hm, h]

/-- C10 witness at a response with a body length, a nonempty header
mapping, and no location header. -/
theorem missing_location_keyerror_witness :
    getHeader crespNoLocation.msg "location" = none ∧
    copyfromlocal 1 crespNoLocation = .error (.keyError "location") ∧
    copytolocal crespNoLocation drespData = .error (.keyError "location") ∧
    readfile "/data/f.txt" 0 10000 10000 "hadoop" crespNoLocation drespData takeDecompress =
      .error (.keyError "location") := by
  refine ⟨by decide, ?_, ?_, ?_⟩
  · exact missing_location_keyerror.1 1 crespNoLocation (by decide)
  · exact missing_location_keyerror.2.1 crespNoLocation drespData
      (by decide) (by decide) (by decide)
  · exact missing_location_keyerror.2.2 "/data/f.txt" 0 10000 10000 "hadoop"
      crespNoLocation drespData takeDecompress (by decide) (by decide) (by decide)

end WebHDFS
